import Mathlib

/-!
The entry point examples/go/echo/main.go

The program under study is the entry point of the echo example:

    func main() {
        e := api.AddRouter(echo.New())
        e.Logger.Fatal(e.Start(":8000"))
    }

Everything `main` does is a call into code that lives elsewhere: `echo.New`,
`api.AddRouter`, `(*Echo).Start` and `Logger.Fatal`, preceded by the
initialisation of the imported packages (`./api`, `./model` -- imported blank --
and `github.com/labstack/echo`).  Those callees are taken as parameters
(`Collaborators`): each is an arbitrary function of its arguments and of the
state of the world, and each call may return, end the process, or never return.
`main` itself is embedded as a program in a small execution monad that records
every call, every return and every effect of a callee in one trace.
-/

namespace EchoMain

/-! ## Behaviour of a callee -/

/-- An effect on the outside world performed by a callee while it runs. -/
inductive Effect
  | netBind (addr : String)
  | fileWrite (path : String)
  | other (tag : Nat)
  deriving DecidableEq, Repr

/-- How a call ends: it returns a value (leaving the world in state `w`), it ends
the process from inside (`os.Exit`, or a panic nobody recovers), or it never
returns. -/
inductive Completion (α W : Type)
  | returned (v : α) (w : W)
  | exited
  | blocked
  deriving DecidableEq, Repr

/-- What a call does: the effects it performs, in order, and how it ends. -/
structure Outcome (α W : Type) where
  effects : List Effect
  completion : Completion α W
  deriving DecidableEq, Repr

/-- The code `main` calls into.  `S` is the type of server objects (`*echo.Echo`),
`Option Err` the Go type `error` (`none` is the nil error), `W` the state of the
world (process state, operating system, network, environment, arguments).
`loggerFatal e args` is the call `e.Logger.Fatal(args...)`: reading the field
`Logger` of `e` and dispatching `Fatal` on it. -/
structure Collaborators (S Err W : Type) where
  importsInit : W → Outcome Unit W
  echoNew : W → Outcome S W
  addRouter : S → W → Outcome S W
  start : S → String → W → Outcome (Option Err) W
  loggerFatal : S → List (Option Err) → W → Outcome Unit W

/-! ## Traces -/

/-- One entry of the trace of an execution. -/
inductive Event (S Err : Type)
  | initCalled
  | initReturned
  | newCalled
  | newReturned (s : S)
  | addRouterCalled (arg : S)
  | addRouterReturned (e : S)
  | startCalled (recv : S) (addr : String)
  | startReturned (err : Option Err)
  | fatalCalled (owner : S) (args : List (Option Err))
  | fatalReturned
  | effect (x : Effect)
  | processExited
  | mainReturned
  deriving DecidableEq, Repr

/-- How an execution stands at the end of its trace: `main` has returned (the Go
runtime then ends the process), the process was ended inside a callee, or
a callee is still running and will never return. -/
inductive Status
  | returned
  | exited
  | blocked
  deriving DecidableEq, Repr

/-- Result of running a piece of the program: it goes on with a value, or it
stops for good (`Status.exited` or `Status.blocked`). -/
inductive Step (S Err W α : Type)
  | cont (a : α) (w : W) (tr : List (Event S Err))
  | halt (st : Status) (tr : List (Event S Err))

/-- Programs: given the callees and the world they produce a `Step`. -/
def Exec (S Err W α : Type) : Type :=
  Collaborators S Err W → W → Step S Err W α

/-- Sequencing: the second part runs only when the first goes on. -/
def Exec.bind {S Err W α β : Type} (m : Exec S Err W α) (f : α → Exec S Err W β) :
    Exec S Err W β := fun c w =>
  match m c w with
  | .cont a w1 tr =>
    match f a c w1 with
    | .cont b w2 tr2 => .cont b w2 (tr ++ tr2)
    | .halt st tr2 => .halt st (tr ++ tr2)
  | .halt st tr => .halt st tr

instance {S Err W : Type} : Monad (Exec S Err W) where
  pure a := fun _ w => .cont a w []
  bind := Exec.bind

/-- A call of a callee: the call is recorded, then the effects of the callee, then
the way it ended. -/
def call {S Err W α : Type} (called : Event S Err)
    (op : Collaborators S Err W → W → Outcome α W) (returned : α → Event S Err) :
    Exec S Err W α := fun c w =>
  match (op c w).completion with
  | .returned v w1 =>
    .cont v w1 (called :: ((op c w).effects.map Event.effect ++ [returned v]))
  | .exited =>
    .halt Status.exited (called :: ((op c w).effects.map Event.effect ++ [Event.processExited]))
  | .blocked =>
    .halt Status.blocked (called :: (op c w).effects.map Event.effect)

/-! ## The program -/

/-- The call `echo.New()`. -/
def echo.New {S Err W : Type} : Exec S Err W S :=
  call Event.newCalled (fun c => c.echoNew) Event.newReturned

/-- The call `api.AddRouter(s)`. -/
def api.AddRouter {S Err W : Type} (s : S) : Exec S Err W S :=
  call (Event.addRouterCalled s) (fun c => c.addRouter s) Event.addRouterReturned

/-- The call `e.Start(addr)`. -/
def Echo.Start {S Err W : Type} (e : S) (addr : String) : Exec S Err W (Option Err) :=
  call (Event.startCalled e addr) (fun c => c.start e addr) Event.startReturned

/-- The call `e.Logger.Fatal(args...)`. -/
def Echo.Logger.Fatal {S Err W : Type} (e : S) (args : List (Option Err)) : Exec S Err W Unit :=
  call (Event.fatalCalled e args) (fun c => c.loggerFatal e args) (fun _ => Event.fatalReturned)

/-- Initialisation of the imported packages, run by the Go runtime before `main`. -/
def importsInit {S Err W : Type} : Exec S Err W Unit :=
  call Event.initCalled (fun c => c.importsInit) (fun _ => Event.initReturned)

/-- The function `main` of main.go. -/
def main {S Err W : Type} : Exec S Err W Unit := do
  let e ← api.AddRouter (← echo.New)
  Echo.Logger.Fatal e [← Echo.Start e ":8000"]

/-- The whole process: package initialisation, then `main`. -/
def process {S Err W : Type} : Exec S Err W Unit := do
  importsInit
  main

/-- An execution, as seen from outside: its trace and how it stands at the end. -/
structure Run (S Err : Type) where
  trace : List (Event S Err)
  status : Status
  deriving DecidableEq, Repr

/-- Runs a program to its end; a program that goes on to its last statement
returns. -/
def run {S Err W : Type} (p : Exec S Err W Unit) (c : Collaborators S Err W) (w : W) :
    Run S Err :=
  match p c w with
  | .cont _ _ tr => ⟨tr ++ [Event.mainReturned], Status.returned⟩
  | .halt st tr => ⟨tr, st⟩

/-- Execution of `main` alone. -/
def runMain {S Err W : Type} (c : Collaborators S Err W) (w : W) : Run S Err :=
  run main c w

/-- Execution of the process from its start. -/
def runProcess {S Err W : Type} (c : Collaborators S Err W) (w : W) : Run S Err :=
  run process c w

/-! ## Reading a trace -/

/-- The calls and returns of `main`, without the values they carry. -/
inductive Mark
  | newCalled
  | newReturned
  | addRouterCalled
  | addRouterReturned
  | startCalled
  | startReturned
  | fatalCalled
  | fatalReturned
  | mainReturned
  deriving DecidableEq, Repr

/-- The calls and returns of `main` in the order of the program text. -/
def Mark.programOrder : List Mark :=
  [.newCalled, .newReturned, .addRouterCalled, .addRouterReturned, .startCalled,
   .startReturned, .fatalCalled, .fatalReturned, .mainReturned]

/-- The mark of an event; effects of callees, the end of the process inside a
callee and package initialisation are no step of `main` and carry none. -/
def Event.mark {S Err : Type} : Event S Err → Option Mark
  | .newCalled => some .newCalled
  | .newReturned _ => some .newReturned
  | .addRouterCalled _ => some .addRouterCalled
  | .addRouterReturned _ => some .addRouterReturned
  | .startCalled _ _ => some .startCalled
  | .startReturned _ => some .startReturned
  | .fatalCalled _ _ => some .fatalCalled
  | .fatalReturned => some .fatalReturned
  | .mainReturned => some .mainReturned
  | .initCalled => none
  | .initReturned => none
  | .effect _ => none
  | .processExited => none

/-- The marks of a trace, in order. -/
def marks {S Err : Type} (tr : List (Event S Err)) : List Mark :=
  tr.filterMap Event.mark

/-- The three states of the process. -/
inductive Phase
  | notStarted
  | serving
  | terminated
  deriving DecidableEq, Repr

/-- The state after an event: the call of `Start` begins serving; the return of
`Start`, the end of the process and the return of `main` end it; every other
event leaves the state as it is. -/
def Phase.step {S Err : Type} (p : Phase) : Event S Err → Phase
  | .startCalled _ _ => .serving
  | .startReturned _ => .terminated
  | .processExited => .terminated
  | .mainReturned => .terminated
  | _ => p

/-- The states an execution goes through, from state `p` on, each time the state
changes. -/
def visited {S Err : Type} (p : Phase) : List (Event S Err) → List Phase
  | [] => [p]
  | ev :: t => if p.step ev = p then visited p t else p :: visited (p.step ev) t

/-! ## Sample callees -/

/-- Callees of a run on a free port: the server object is a number, the router
hands back the object it was given plus one, `Start` binds and serves for ever. -/
def sampleServe : Collaborators Nat Nat Nat where
  importsInit := fun w => ⟨[], .returned () (w + 1)⟩
  echoNew := fun w => ⟨[.other 0], .returned 10 (w + 1)⟩
  addRouter := fun s w => ⟨[.other 1], .returned (s + 1) (w + 1)⟩
  start := fun _ addr _ => ⟨[.netBind addr], .blocked⟩
  loggerFatal := fun _ _ _ => ⟨[.fileWrite "stderr"], .exited⟩

/-- Callees of a run on a port that is taken: `Start` fails with error 98 without
binding, and the fatal logger writes its line and ends the process. -/
def sampleBusy : Collaborators Nat Nat Nat where
  importsInit := fun w => ⟨[], .returned () (w + 1)⟩
  echoNew := fun w => ⟨[.other 0], .returned 10 (w + 1)⟩
  addRouter := fun s w => ⟨[.other 1], .returned (s + 1) (w + 1)⟩
  start := fun _ _ w => ⟨[], .returned (some 98) w⟩
  loggerFatal := fun _ _ _ => ⟨[.fileWrite "stderr"], .exited⟩

/-- Callees of a run in which `Start` serves, then returns the nil error, and the
logger installed on the server writes its line and returns. -/
def sampleNil : Collaborators Nat Nat Nat where
  importsInit := fun w => ⟨[], .returned () (w + 1)⟩
  echoNew := fun w => ⟨[.other 0], .returned 10 (w + 1)⟩
  addRouter := fun s w => ⟨[.other 1], .returned (s + 1) (w + 1)⟩
  start := fun _ addr w => ⟨[.netBind addr], .returned none w⟩
  loggerFatal := fun _ _ w => ⟨[.fileWrite "stderr"], .returned () w⟩

/-- The events of the sample executions of `main` up to the call of `Start`. -/
def segmentAtStart : List (Event Nat Nat) :=
  [.newCalled, .effect (.other 0), .newReturned 10, .addRouterCalled 10, .effect (.other 1),
   .addRouterReturned 11, .startCalled 11 ":8000"]

/-! ## The shapes of an execution -/

section Shapes
variable {S Err W : Type}

/-- The nine shapes an execution of `main` can have, one for each way the four
calls can end. -/
inductive MainShape (c : Collaborators S Err W) (w : W) : Run S Err → Prop
  | newExited (h1 : (c.echoNew w).completion = .exited) :
      MainShape c w ⟨.newCalled :: ((c.echoNew w).effects.map .effect ++ [.processExited]),
        .exited⟩
  | newBlocked (h1 : (c.echoNew w).completion = .blocked) :
      MainShape c w ⟨.newCalled :: (c.echoNew w).effects.map .effect, .blocked⟩
  | addExited (s : S) (w1 : W) (h1 : (c.echoNew w).completion = .returned s w1)
      (h2 : (c.addRouter s w1).completion = .exited) :
      MainShape c w ⟨.newCalled :: ((c.echoNew w).effects.map .effect ++
        .newReturned s :: .addRouterCalled s :: ((c.addRouter s w1).effects.map .effect ++
        [.processExited])), .exited⟩
  | addBlocked (s : S) (w1 : W) (h1 : (c.echoNew w).completion = .returned s w1)
      (h2 : (c.addRouter s w1).completion = .blocked) :
      MainShape c w ⟨.newCalled :: ((c.echoNew w).effects.map .effect ++
        .newReturned s :: .addRouterCalled s :: (c.addRouter s w1).effects.map .effect),
        .blocked⟩
  | startExited (s : S) (w1 : W) (e : S) (w2 : W)
      (h1 : (c.echoNew w).completion = .returned s w1)
      (h2 : (c.addRouter s w1).completion = .returned e w2)
      (h3 : (c.start e ":8000" w2).completion = .exited) :
      MainShape c w ⟨.newCalled :: ((c.echoNew w).effects.map .effect ++
        .newReturned s :: .addRouterCalled s :: ((c.addRouter s w1).effects.map .effect ++
        .addRouterReturned e :: .startCalled e ":8000" ::
        ((c.start e ":8000" w2).effects.map .effect ++ [.processExited]))), .exited⟩
  | startBlocked (s : S) (w1 : W) (e : S) (w2 : W)
      (h1 : (c.echoNew w).completion = .returned s w1)
      (h2 : (c.addRouter s w1).completion = .returned e w2)
      (h3 : (c.start e ":8000" w2).completion = .blocked) :
      MainShape c w ⟨.newCalled :: ((c.echoNew w).effects.map .effect ++
        .newReturned s :: .addRouterCalled s :: ((c.addRouter s w1).effects.map .effect ++
        .addRouterReturned e :: .startCalled e ":8000" ::
        (c.start e ":8000" w2).effects.map .effect)), .blocked⟩
  | fatalExited (s : S) (w1 : W) (e : S) (w2 : W) (err : Option Err) (w3 : W)
      (h1 : (c.echoNew w).completion = .returned s w1)
      (h2 : (c.addRouter s w1).completion = .returned e w2)
      (h3 : (c.start e ":8000" w2).completion = .returned err w3)
      (h4 : (c.loggerFatal e [err] w3).completion = .exited) :
      MainShape c w ⟨.newCalled :: ((c.echoNew w).effects.map .effect ++
        .newReturned s :: .addRouterCalled s :: ((c.addRouter s w1).effects.map .effect ++
        .addRouterReturned e :: .startCalled e ":8000" ::
        ((c.start e ":8000" w2).effects.map .effect ++
        .startReturned err :: .fatalCalled e [err] ::
        ((c.loggerFatal e [err] w3).effects.map .effect ++ [.processExited])))), .exited⟩
  | fatalBlocked (s : S) (w1 : W) (e : S) (w2 : W) (err : Option Err) (w3 : W)
      (h1 : (c.echoNew w).completion = .returned s w1)
      (h2 : (c.addRouter s w1).completion = .returned e w2)
      (h3 : (c.start e ":8000" w2).completion = .returned err w3)
      (h4 : (c.loggerFatal e [err] w3).completion = .blocked) :
      MainShape c w ⟨.newCalled :: ((c.echoNew w).effects.map .effect ++
        .newReturned s :: .addRouterCalled s :: ((c.addRouter s w1).effects.map .effect ++
        .addRouterReturned e :: .startCalled e ":8000" ::
        ((c.start e ":8000" w2).effects.map .effect ++
        .startReturned err :: .fatalCalled e [err] ::
        (c.loggerFatal e [err] w3).effects.map .effect))), .blocked⟩
  | fatalReturned (s : S) (w1 : W) (e : S) (w2 : W) (err : Option Err) (w3 w4 : W)
      (h1 : (c.echoNew w).completion = .returned s w1)
      (h2 : (c.addRouter s w1).completion = .returned e w2)
      (h3 : (c.start e ":8000" w2).completion = .returned err w3)
      (h4 : (c.loggerFatal e [err] w3).completion = .returned () w4) :
      MainShape c w ⟨.newCalled :: ((c.echoNew w).effects.map .effect ++
        .newReturned s :: .addRouterCalled s :: ((c.addRouter s w1).effects.map .effect ++
        .addRouterReturned e :: .startCalled e ":8000" ::
        ((c.start e ":8000" w2).effects.map .effect ++
        .startReturned err :: .fatalCalled e [err] ::
        ((c.loggerFatal e [err] w3).effects.map .effect ++
        [.fatalReturned, .mainReturned])))), .returned⟩

/-- Every execution of `main` has one of the nine shapes. -/
theorem runMain_shape (c : Collaborators S Err W) (w : W) : MainShape c w (runMain c w) := by
  unfold runMain run main
  simp only [bind, Exec.bind, echo.New, api.AddRouter, Echo.Start, Echo.Logger.Fatal, call]
  rcases h1 : (c.echoNew w).completion with ⟨s, w1⟩ | _ | _
  · rcases h2 : (c.addRouter s w1).completion with ⟨e, w2⟩ | _ | _
    · rcases h3 : (c.start e ":8000" w2).completion with ⟨err, w3⟩ | _ | _
      · rcases h4 : (c.loggerFatal e [err] w3).completion with ⟨u, w4⟩ | _ | _
        · simpa [h1, h2, h3, h4] using MainShape.fatalReturned s w1 e w2 err w3 w4 h1 h2 h3 h4
        · simpa [h1, h2, h3, h4] using MainShape.fatalExited s w1 e w2 err w3 h1 h2 h3 h4
        · simpa [h1, h2, h3, h4] using MainShape.fatalBlocked s w1 e w2 err w3 h1 h2 h3 h4
      · simpa [h1, h2, h3] using MainShape.startExited s w1 e w2 h1 h2 h3
      · simpa [h1, h2, h3] using MainShape.startBlocked s w1 e w2 h1 h2 h3
    · simpa [h1, h2] using MainShape.addExited s w1 h1 h2
    · simpa [h1, h2] using MainShape.addBlocked s w1 h1 h2
  · simpa [h1] using MainShape.newExited h1
  · simpa [h1] using MainShape.newBlocked h1

/-! ## Lemmas on traces -/

theorem marks_effects (xs : List Effect) :
    List.filterMap (Event.mark ∘ (Event.effect : Effect → Event S Err)) xs = [] := by
  induction xs with
  | nil => rfl
  | cons x xs ih => simp [Event.mark, ih]

theorem visited_effects (q : Phase) (xs : List Effect) (t : List (Event S Err)) :
    visited q (xs.map Event.effect ++ t) = visited q t := by
  induction xs with
  | nil => rfl
  | cons x xs ih => simp [visited, Phase.step, ih]

theorem visited_effects_only (q : Phase) (xs : List Effect) :
    visited q (xs.map Event.effect : List (Event S Err)) = [q] := by
  simpa [visited] using @visited_effects S Err q xs []

/-- The calls and returns of an execution of `main` happen in program order. -/
theorem marks_runMain (c : Collaborators S Err W) (w : W) :
    marks (runMain c w).trace <+: Mark.programOrder := by
  have h := runMain_shape c w
  generalize runMain c w = r at h
  cases h <;>
    simp [marks_effects, marks, Event.mark, Mark.programOrder]

/-- The states an execution of `main` goes through. -/
theorem visited_runMain (c : Collaborators S Err W) (w : W) :
    List.Sublist (visited Phase.notStarted (runMain c w).trace)
      [Phase.notStarted, Phase.serving, Phase.terminated] := by
  have h := runMain_shape c w
  generalize runMain c w = r at h
  cases h <;>
    simp [visited_effects, visited_effects_only, visited, Phase.step]

theorem mem_marks {tr : List (Event S Err)} {ev : Event S Err} {m : Mark}
    (h : ev ∈ tr) (hm : ev.mark = some m) : m ∈ marks tr :=
  List.mem_filterMap.2 ⟨ev, h, hm⟩

/-- The marks of every initial segment of an execution of `main` form an initial
segment of the program order. -/
theorem marks_segment (c : Collaborators S Err W) (w : W) (p : List (Event S Err))
    (hp : p <+: (runMain c w).trace) : marks p ∈ Mark.programOrder.inits :=
  (List.mem_inits _ _).2 ((List.IsPrefix.filterMap Event.mark hp).trans (marks_runMain c w))

theorem programOrder_segments :
    ∀ l ∈ Mark.programOrder.inits,
      (Mark.startCalled ∈ l → Mark.addRouterReturned ∈ l) ∧
      (Mark.addRouterCalled ∈ l → Mark.newReturned ∈ l) ∧
      (Mark.startReturned ∉ l →
        Mark.fatalCalled ∉ l ∧ Mark.fatalReturned ∉ l ∧ Mark.mainReturned ∉ l) ∧
      l.count Mark.newCalled ≤ 1 ∧ l.count Mark.addRouterCalled ≤ 1 ∧
      l.count Mark.startCalled ≤ 1 := by
  decide

/-- When `echo.New` and `api.AddRouter` return, the execution of `main` goes on
with the call of `Start` and the effects of `Start`; when `Start` never returns,
nothing else follows. -/
theorem runMain_reaches_start (c : Collaborators S Err W) (w : W) (s : S) (w1 : W) (e : S)
    (w2 : W) (hN : (c.echoNew w).completion = .returned s w1)
    (hA : (c.addRouter s w1).completion = .returned e w2) :
    ∃ post, (runMain c w).trace =
        Event.newCalled :: ((c.echoNew w).effects.map Event.effect ++
          Event.newReturned s :: Event.addRouterCalled s ::
          ((c.addRouter s w1).effects.map Event.effect ++
          Event.addRouterReturned e :: Event.startCalled e ":8000" ::
          ((c.start e ":8000" w2).effects.map Event.effect ++ post))) ∧
      ((c.start e ":8000" w2).completion = .blocked →
        post = [] ∧ (runMain c w).status = Status.blocked) := by
  rcases h3 : (c.start e ":8000" w2).completion with ⟨err, w3⟩ | _ | _
  · rcases h4 : (c.loggerFatal e [err] w3).completion with ⟨u, w4⟩ | _ | _
    · refine ⟨Event.startReturned err :: Event.fatalCalled e [err] ::
        ((c.loggerFatal e [err] w3).effects.map Event.effect ++
          [Event.fatalReturned, Event.mainReturned]), ?_, ?_⟩
      · simp [runMain, run, main, bind, Exec.bind, echo.New, api.AddRouter, Echo.Start,
          Echo.Logger.Fatal, call, hN, hA, h3, h4]
      · intro h
        cases h
    · refine ⟨Event.startReturned err :: Event.fatalCalled e [err] ::
        ((c.loggerFatal e [err] w3).effects.map Event.effect ++ [Event.processExited]),
        ?_, ?_⟩
      · simp [runMain, run, main, bind, Exec.bind, echo.New, api.AddRouter, Echo.Start,
          Echo.Logger.Fatal, call, hN, hA, h3, h4]
      · intro h
        cases h
    · refine ⟨Event.startReturned err :: Event.fatalCalled e [err] ::
        (c.loggerFatal e [err] w3).effects.map Event.effect, ?_, ?_⟩
      · simp [runMain, run, main, bind, Exec.bind, echo.New, api.AddRouter, Echo.Start,
          Echo.Logger.Fatal, call, hN, hA, h3, h4]
      · intro h
        cases h
  · refine ⟨[Event.processExited], ?_, ?_⟩
    · simp [runMain, run, main, bind, Exec.bind, echo.New, api.AddRouter, Echo.Start,
        Echo.Logger.Fatal, call, hN, hA, h3]
    · intro h
      cases h
  · refine ⟨[], ?_, fun _ => ⟨rfl, ?_⟩⟩
    · simp [runMain, run, main, bind, Exec.bind, echo.New, api.AddRouter, Echo.Start,
        Echo.Logger.Fatal, call, hN, hA, h3]
    · simp [runMain, run, main, bind, Exec.bind, echo.New, api.AddRouter, Echo.Start,
        Echo.Logger.Fatal, call, hN, hA, h3]

end Shapes

section Claims
variable {S Err W : Type}

/-- Claim C4 (call order, no retry).  In every initial segment `p` of every
execution of `main`: the calls and returns of `echo.New`, `api.AddRouter`, `Start`
and `Logger.Fatal` occur in the order of the program text, each at most once
(`marks p` is an initial segment of `Mark.programOrder`), so `echo.New`,
`api.AddRouter` and `Start` are each called at most once and `Start` is never
called again after it returned; when `Start` has been called, `api.AddRouter` has
returned; and the states the execution goes through are, in this order and
without a step back, among not started, serving, terminated. -/
theorem call_order_no_retry (c : Collaborators S Err W) (w : W) (p : List (Event S Err))
    (hp : p <+: (runMain c w).trace) :
    marks p <+: Mark.programOrder ∧
    (marks p).count Mark.newCalled ≤ 1 ∧
    (marks p).count Mark.addRouterCalled ≤ 1 ∧
    (marks p).count Mark.startCalled ≤ 1 ∧
    ((∃ r a, Event.startCalled r a ∈ p) → ∃ e, Event.addRouterReturned e ∈ p) ∧
    List.Sublist (visited Phase.notStarted (runMain c w).trace)
      [Phase.notStarted, Phase.serving, Phase.terminated] := by
  have hseg := marks_segment c w p hp
  obtain ⟨h1, -, -, h4, h5, h6⟩ := programOrder_segments _ hseg
  refine ⟨(List.mem_inits _ _).1 hseg, h4, h5, h6, ?_, visited_runMain c w⟩
  rintro ⟨r, a, hra⟩
  obtain ⟨ev, hev, hmk⟩ := List.mem_filterMap.1 (h1 (mem_marks hra rfl))
  cases ev <;> simp [Event.mark] at hmk
  exact ⟨_, hev⟩

/-- Claim C5 (startup), in the model.  Once `echo.New` and `api.AddRouter` have
returned, `main` calls `Start` on the object `api.AddRouter` returned, with the
address ":8000": the call is the event that comes right after the events of the
two calls before it (event number `4 +` the number of their effects: a bounded
number of steps), and the effects of `Start` follow it.  So when `Start` binds the
address it is given, a bind of ":8000" occurs after the call; and when `Start`
serves and never returns (the port is free), the execution ends there, blocked in
`Start`: the process has not ended.  In every initial segment `p` of every
execution in which the call of `Start` has not returned, the fatal logger has not
been called (nor has it returned) and `main` has not returned.  The time a real
`Start` needs to open its socket is outside this model. -/
theorem serving_until_start_returns (c : Collaborators S Err W) (w : W)
    (p : List (Event S Err)) (hp : p <+: (runMain c w).trace)
    (hr : ∀ err, Event.startReturned err ∉ p) :
    (∀ o a, Event.fatalCalled o a ∉ p) ∧ Event.fatalReturned ∉ p ∧
    Event.mainReturned ∉ p ∧
    (∀ s w1 e w2, (c.echoNew w).completion = .returned s w1 →
      (c.addRouter s w1).completion = .returned e w2 →
      (∃ post, (runMain c w).trace =
        Event.newCalled :: ((c.echoNew w).effects.map Event.effect ++
          Event.newReturned s :: Event.addRouterCalled s ::
          ((c.addRouter s w1).effects.map Event.effect ++
          Event.addRouterReturned e :: Event.startCalled e ":8000" ::
          ((c.start e ":8000" w2).effects.map Event.effect ++ post)))) ∧
      (runMain c w).trace[(c.echoNew w).effects.length +
          (c.addRouter s w1).effects.length + 4]? = some (Event.startCalled e ":8000") ∧
      ((∀ addr, Effect.netBind addr ∈ (c.start e addr w2).effects) →
        ∃ a b, (runMain c w).trace = a ++ Event.effect (Effect.netBind ":8000") :: b ∧
          Event.startCalled e ":8000" ∈ a) ∧
      ((c.start e ":8000" w2).completion = .blocked →
        (runMain c w).trace =
          Event.newCalled :: ((c.echoNew w).effects.map Event.effect ++
            Event.newReturned s :: Event.addRouterCalled s ::
            ((c.addRouter s w1).effects.map Event.effect ++
            Event.addRouterReturned e :: Event.startCalled e ":8000" ::
            (c.start e ":8000" w2).effects.map Event.effect)) ∧
        (runMain c w).status = Status.blocked ∧
        Event.processExited ∉ (runMain c w).trace)) := by
  have hseg := marks_segment c w p hp
  obtain ⟨-, -, h3, -⟩ := programOrder_segments _ hseg
  have hno : Mark.startReturned ∉ marks p := by
    intro hmem
    obtain ⟨ev, hev, hmk⟩ := List.mem_filterMap.1 hmem
    cases ev <;> simp [Event.mark] at hmk
    exact hr _ hev
  obtain ⟨ha, hb, hc⟩ := h3 hno
  refine ⟨fun o a h => ha (mem_marks h rfl), fun h => hb (mem_marks h rfl),
    fun h => hc (mem_marks h rfl), ?_⟩
  intro s w1 e w2 hN hA
  obtain ⟨post, htr, hblk⟩ := runMain_reaches_start c w s w1 e w2 hN hA
  refine ⟨⟨post, htr⟩, ?_, ?_, ?_⟩
  · have hsplit : (runMain c w).trace =
        (Event.newCalled :: ((c.echoNew w).effects.map Event.effect ++
          Event.newReturned s :: Event.addRouterCalled s ::
          ((c.addRouter s w1).effects.map Event.effect ++ [Event.addRouterReturned e]))) ++
        Event.startCalled e ":8000" ::
          ((c.start e ":8000" w2).effects.map Event.effect ++ post) := by
      rw [htr]
      simp
    have hlen : (Event.newCalled :: ((c.echoNew w).effects.map Event.effect ++
          Event.newReturned s :: Event.addRouterCalled s ::
          ((c.addRouter s w1).effects.map Event.effect ++
            [(Event.addRouterReturned e : Event S Err)]))).length =
        (c.echoNew w).effects.length + (c.addRouter s w1).effects.length + 4 := by
      simp
      omega
    rw [hsplit, ← hlen, List.getElem?_append_right (Nat.le_refl _)]
    simp
  · intro hbind
    obtain ⟨l1, l2, hl⟩ := List.append_of_mem (hbind ":8000")
    refine ⟨Event.newCalled :: ((c.echoNew w).effects.map Event.effect ++
      Event.newReturned s :: Event.addRouterCalled s ::
      ((c.addRouter s w1).effects.map Event.effect ++
      Event.addRouterReturned e :: Event.startCalled e ":8000" :: l1.map Event.effect)),
      l2.map Event.effect ++ post, ?_, by simp⟩
    rw [htr, hl]
    simp
  · intro hS
    obtain ⟨rfl, hst⟩ := hblk hS
    refine ⟨by simpa using htr, hst, ?_⟩
    rw [htr]
    simp

/-- Claim C3 (fixed listen address).  Whatever the callees do and whatever the
world is (environment and arguments are part of the world `W`, which `main` never
reads), the address passed to `Start` is the string ":8000": a colon with no host
before it, then the digits 8000.  Two executions, with different callees,
different worlds and even different types of server objects, pass the same
address. -/
theorem listen_address_fixed {S2 Err2 W2 : Type} (c : Collaborators S Err W) (w : W)
    (c2 : Collaborators S2 Err2 W2) (w2 : W2) (r : S) (a : String) (r2 : S2) (a2 : String)
    (h : Event.startCalled r a ∈ (runMain c w).trace)
    (h2 : Event.startCalled r2 a2 ∈ (runMain c2 w2).trace) :
    a = ":8000" ∧ a2 = a ∧ a.data = ':' :: "8000".data := by
  have key : ∀ {S Err W : Type} (c : Collaborators S Err W) (w : W) (r : S) (a : String),
      Event.startCalled r a ∈ (runMain c w).trace → a = ":8000" := by
    intro S Err W c w r a h
    have hs := runMain_shape c w
    generalize runMain c w = x at hs h
    cases hs <;> simp at h <;> exact h.2
  have e1 := key c w r a h
  have e2 := key c2 w2 r2 a2 h2
  subst e1 e2
  exact ⟨rfl, rfl, rfl⟩

/-- Claim C1 (route delegation).  Whatever the callees do, when `Start` is called
with receiver `recv`, then `echo.New` returned some `s`, `api.AddRouter` applied
to that `s` returned `recv`, and in the trace the call of `Start` on `recv` comes
right after the return of `api.AddRouter` with `recv`: nothing lies between the
two.  It is the only call of `Start`, and `api.AddRouter` has not returned
before. -/
theorem start_receiver_is_router_result (c : Collaborators S Err W) (w : W) (recv : S)
    (addr : String) (h : Event.startCalled recv addr ∈ (runMain c w).trace) :
    ∃ s w1 w2, (c.echoNew w).completion = .returned s w1 ∧
      (c.addRouter s w1).completion = .returned recv w2 ∧
      ∃ pre post, (runMain c w).trace =
          pre ++ Event.addRouterReturned recv :: Event.startCalled recv addr :: post ∧
        Event.addRouterCalled s ∈ pre ∧ Event.newReturned s ∈ pre ∧
        Mark.addRouterReturned ∉ marks pre ∧
        Mark.startCalled ∉ marks pre ∧ Mark.startCalled ∉ marks post := by
  have hs := runMain_shape c w
  generalize runMain c w = x at hs h
  cases hs with
  | newExited h1 => simp at h
  | newBlocked h1 => simp at h
  | addExited s w1 h1 h2 => simp at h
  | addBlocked s w1 h1 h2 => simp at h
  | startExited s w1 e w2 h1 h2 h3 =>
    simp at h
    obtain ⟨rfl, rfl⟩ := h
    exact ⟨s, w1, w2, h1, h2, Event.newCalled :: ((c.echoNew w).effects.map .effect ++
      .newReturned s :: .addRouterCalled s :: (c.addRouter s w1).effects.map .effect),
      (c.start recv ":8000" w2).effects.map .effect ++ [.processExited],
      by simp [marks, marks_effects, Event.mark]⟩
  | startBlocked s w1 e w2 h1 h2 h3 =>
    simp at h
    obtain ⟨rfl, rfl⟩ := h
    exact ⟨s, w1, w2, h1, h2, Event.newCalled :: ((c.echoNew w).effects.map .effect ++
      .newReturned s :: .addRouterCalled s :: (c.addRouter s w1).effects.map .effect),
      (c.start recv ":8000" w2).effects.map .effect,
      by simp [marks, marks_effects, Event.mark]⟩
  | fatalExited s w1 e w2 err w3 h1 h2 h3 h4 =>
    simp at h
    obtain ⟨rfl, rfl⟩ := h
    exact ⟨s, w1, w2, h1, h2, Event.newCalled :: ((c.echoNew w).effects.map .effect ++
      .newReturned s :: .addRouterCalled s :: (c.addRouter s w1).effects.map .effect),
      (c.start recv ":8000" w2).effects.map .effect ++ .startReturned err ::
        .fatalCalled recv [err] ::
        ((c.loggerFatal recv [err] w3).effects.map .effect ++ [.processExited]),
      by simp [marks, marks_effects, Event.mark]⟩
  | fatalBlocked s w1 e w2 err w3 h1 h2 h3 h4 =>
    simp at h
    obtain ⟨rfl, rfl⟩ := h
    exact ⟨s, w1, w2, h1, h2, Event.newCalled :: ((c.echoNew w).effects.map .effect ++
      .newReturned s :: .addRouterCalled s :: (c.addRouter s w1).effects.map .effect),
      (c.start recv ":8000" w2).effects.map .effect ++ .startReturned err ::
        .fatalCalled recv [err] :: (c.loggerFatal recv [err] w3).effects.map .effect,
      by simp [marks, marks_effects, Event.mark]⟩
  | fatalReturned s w1 e w2 err w3 w4 h1 h2 h3 h4 =>
    simp at h
    obtain ⟨rfl, rfl⟩ := h
    exact ⟨s, w1, w2, h1, h2, Event.newCalled :: ((c.echoNew w).effects.map .effect ++
      .newReturned s :: .addRouterCalled s :: (c.addRouter s w1).effects.map .effect),
      (c.start recv ":8000" w2).effects.map .effect ++ .startReturned err ::
        .fatalCalled recv [err] ::
        ((c.loggerFatal recv [err] w3).effects.map .effect ++
          [.fatalReturned, .mainReturned]),
      by simp [marks, marks_effects, Event.mark]⟩

/-- Claim C2 (serve failure is fatal).  In an execution that reaches `Start`, for
every value `err` that `Start` returns, the next event after that return is the
call of the fatal logger of `e`, the object `api.AddRouter` returned, with exactly
`[err]`; it is the first call of the fatal logger; after it come only the effects
of the logger itself and the end: the process ends inside the logger, or the
logger returns and `main` returns at once.  Either way the process terminates.
The fatal logger is taken to end the process or to return; one that does neither
is the one behaviour left out (`hF`). -/
theorem serve_failure_is_fatal (c : Collaborators S Err W) (w : W) (s : S) (w1 : W) (e : S)
    (w2 : W) (err : Option Err) (w3 : W)
    (hN : (c.echoNew w).completion = .returned s w1)
    (hA : (c.addRouter s w1).completion = .returned e w2)
    (hS : (c.start e ":8000" w2).completion = .returned err w3)
    (hF : (c.loggerFatal e [err] w3).completion ≠ .blocked) :
    ∃ pre post, (runMain c w).trace =
        pre ++ Event.startReturned err :: Event.fatalCalled e [err] ::
          ((c.loggerFatal e [err] w3).effects.map Event.effect ++ post) ∧
      Mark.fatalCalled ∉ marks pre ∧
      (post = [Event.processExited] ∨ post = [Event.fatalReturned, Event.mainReturned]) ∧
      ((runMain c w).status = Status.exited ∨ (runMain c w).status = Status.returned) := by
  refine ⟨Event.newCalled :: ((c.echoNew w).effects.map .effect ++
      .newReturned s :: .addRouterCalled s :: ((c.addRouter s w1).effects.map .effect ++
      .addRouterReturned e :: .startCalled e ":8000" ::
      (c.start e ":8000" w2).effects.map .effect)), ?_⟩
  rcases h4 : (c.loggerFatal e [err] w3).completion with ⟨u, w4⟩ | _ | _
  · exact ⟨[.fatalReturned, .mainReturned], by
      simp [runMain, run, main, bind, Exec.bind, echo.New, api.AddRouter, Echo.Start,
        Echo.Logger.Fatal, call, hN, hA, hS, h4, marks, marks_effects, Event.mark]⟩
  · exact ⟨[.processExited], by
      simp [runMain, run, main, bind, Exec.bind, echo.New, api.AddRouter, Echo.Start,
        Echo.Logger.Fatal, call, hN, hA, hS, h4, marks, marks_effects, Event.mark]⟩
  · exact absurd h4 hF

/-- Claim C7 (unconditional fatal on return).  For every value `v` that `Start`
returns, the nil error `none` included, the return is followed at once, with no
test of `v`, by the call of the fatal logger of the object `api.AddRouter`
returned, with exactly `[v]`.  So `main` returns normally only after the fatal
logger was called and returned. -/
theorem fatal_on_every_return (c : Collaborators S Err W) (w : W) (v : Option Err)
    (h : Event.startReturned v ∈ (runMain c w).trace) :
    ∃ e, Event.addRouterReturned e ∈ (runMain c w).trace ∧
      (∃ pre post, (runMain c w).trace =
        pre ++ Event.startReturned v :: Event.fatalCalled e [v] :: post) ∧
      ((runMain c w).status = Status.returned →
        Event.fatalReturned ∈ (runMain c w).trace) := by
  have hs := runMain_shape c w
  generalize runMain c w = x at hs h
  cases hs with
  | newExited h1 => simp at h
  | newBlocked h1 => simp at h
  | addExited s w1 h1 h2 => simp at h
  | addBlocked s w1 h1 h2 => simp at h
  | startExited s w1 e w2 h1 h2 h3 => simp at h
  | startBlocked s w1 e w2 h1 h2 h3 => simp at h
  | fatalExited s w1 e w2 err w3 h1 h2 h3 h4 =>
    simp at h
    subst h
    exact ⟨e, by simp, ⟨Event.newCalled :: ((c.echoNew w).effects.map .effect ++
      .newReturned s :: .addRouterCalled s :: ((c.addRouter s w1).effects.map .effect ++
      .addRouterReturned e :: .startCalled e ":8000" ::
      (c.start e ":8000" w2).effects.map .effect)), _, by simp; rfl⟩, by simp⟩
  | fatalBlocked s w1 e w2 err w3 h1 h2 h3 h4 =>
    simp at h
    subst h
    exact ⟨e, by simp, ⟨Event.newCalled :: ((c.echoNew w).effects.map .effect ++
      .newReturned s :: .addRouterCalled s :: ((c.addRouter s w1).effects.map .effect ++
      .addRouterReturned e :: .startCalled e ":8000" ::
      (c.start e ":8000" w2).effects.map .effect)), _, by simp; rfl⟩, by simp⟩
  | fatalReturned s w1 e w2 err w3 w4 h1 h2 h3 h4 =>
    simp at h
    subst h
    exact ⟨e, by simp, ⟨Event.newCalled :: ((c.echoNew w).effects.map .effect ++
      .newReturned s :: .addRouterCalled s :: ((c.addRouter s w1).effects.map .effect ++
      .addRouterReturned e :: .startCalled e ":8000" ::
      (c.start e ":8000" w2).effects.map .effect)), _, by simp; rfl⟩, by simp⟩

/-! ## The theorems at sample executions -/

theorem call_order_no_retry_witness :
    segmentAtStart <+: (runMain sampleBusy 0).trace ∧
    marks segmentAtStart <+: Mark.programOrder ∧
    (visited Phase.notStarted (runMain sampleBusy 0).trace).Sublist
      [Phase.notStarted, Phase.serving, Phase.terminated] :=
  have h := call_order_no_retry sampleBusy 0 segmentAtStart ⟨_, rfl⟩
  ⟨⟨_, rfl⟩, h.1, h.2.2.2.2.2⟩

theorem serving_until_start_returns_witness :
    ((runMain sampleServe 0).trace <+: (runMain sampleServe 0).trace ∧
      (∀ err, Event.startReturned err ∉ (runMain sampleServe 0).trace) ∧
      (sampleServe.echoNew 0).completion = .returned 10 1 ∧
      (sampleServe.addRouter 10 1).completion = .returned 11 2 ∧
      (∀ addr, Effect.netBind addr ∈ (sampleServe.start 11 addr 2).effects) ∧
      (sampleServe.start 11 ":8000" 2).completion = .blocked) ∧
    (∀ o a, Event.fatalCalled o a ∉ (runMain sampleServe 0).trace) ∧
    Event.mainReturned ∉ (runMain sampleServe 0).trace ∧
    (runMain sampleServe 0).trace[6]? = some (Event.startCalled 11 ":8000") ∧
    (∃ a b, (runMain sampleServe 0).trace =
        a ++ Event.effect (Effect.netBind ":8000") :: b ∧
      Event.startCalled 11 ":8000" ∈ a) ∧
    (runMain sampleServe 0).status = Status.blocked ∧
    Event.processExited ∉ (runMain sampleServe 0).trace := by
  have e : (runMain sampleServe 0).trace = [.newCalled, .effect (.other 0), .newReturned 10,
      .addRouterCalled 10, .effect (.other 1), .addRouterReturned 11,
      .startCalled 11 ":8000", .effect (.netBind ":8000")] := rfl
  have hr : ∀ err, Event.startReturned err ∉ (runMain sampleServe 0).trace := by
    intro err h
    rw [e] at h
    simp at h
  have hb : ∀ addr, Effect.netBind addr ∈ (sampleServe.start 11 addr 2).effects := by
    intro addr
    simp [sampleServe]
  have h := serving_until_start_returns sampleServe 0 _ (List.prefix_refl _) hr
  have h4 := h.2.2.2 10 1 11 2 rfl rfl
  exact ⟨⟨List.prefix_refl _, hr, rfl, rfl, hb, rfl⟩, h.1, h.2.2.1, h4.2.1, h4.2.2.1 hb,
    (h4.2.2.2 rfl).2.1, (h4.2.2.2 rfl).2.2⟩

theorem listen_address_fixed_witness :
    (Event.startCalled 11 ":8000" ∈ (runMain sampleServe 0).trace ∧
      Event.startCalled 11 ":8000" ∈ (runMain sampleBusy 5).trace) ∧
    (":8000" = ":8000" ∧ ":8000" = ":8000" ∧ ":8000".data = ':' :: "8000".data) :=
  ⟨⟨by decide, by decide⟩,
    listen_address_fixed sampleServe 0 sampleBusy 5 11 ":8000" 11 ":8000" (by decide)
      (by decide)⟩

theorem start_receiver_is_router_result_witness :
    Event.startCalled 11 ":8000" ∈ (runMain sampleServe 0).trace ∧
    ∃ s w1 w2, (sampleServe.echoNew 0).completion = .returned s w1 ∧
      (sampleServe.addRouter s w1).completion = .returned 11 w2 ∧
      ∃ pre post, (runMain sampleServe 0).trace =
          pre ++ Event.addRouterReturned 11 :: Event.startCalled 11 ":8000" :: post ∧
        Event.addRouterCalled s ∈ pre ∧ Event.newReturned s ∈ pre ∧
        Mark.addRouterReturned ∉ marks pre ∧
        Mark.startCalled ∉ marks pre ∧ Mark.startCalled ∉ marks post :=
  ⟨by decide, start_receiver_is_router_result sampleServe 0 11 ":8000" (by decide)⟩

theorem serve_failure_is_fatal_witness :
    ((sampleBusy.echoNew 0).completion = .returned 10 1 ∧
      (sampleBusy.addRouter 10 1).completion = .returned 11 2 ∧
      (sampleBusy.start 11 ":8000" 2).completion = .returned (some 98) 2 ∧
      (sampleBusy.loggerFatal 11 [some 98] 2).completion ≠ .blocked) ∧
    ∃ pre post, (runMain sampleBusy 0).trace =
        pre ++ Event.startReturned (some 98) :: Event.fatalCalled 11 [some 98] ::
          ((sampleBusy.loggerFatal 11 [some 98] 2).effects.map Event.effect ++ post) ∧
      Mark.fatalCalled ∉ marks pre ∧
      (post = [Event.processExited] ∨ post = [Event.fatalReturned, Event.mainReturned]) ∧
      ((runMain sampleBusy 0).status = Status.exited ∨
        (runMain sampleBusy 0).status = Status.returned) :=
  ⟨⟨rfl, rfl, rfl, by decide⟩,
    serve_failure_is_fatal sampleBusy 0 10 1 11 2 (some 98) 2 rfl rfl rfl (by decide)⟩

theorem fatal_on_every_return_witness :
    Event.startReturned none ∈ (runMain sampleNil 0).trace ∧
    ∃ e, Event.addRouterReturned e ∈ (runMain sampleNil 0).trace ∧
      (∃ pre post, (runMain sampleNil 0).trace =
        pre ++ Event.startReturned none :: Event.fatalCalled e [none] :: post) ∧
      ((runMain sampleNil 0).status = Status.returned →
        Event.fatalReturned ∈ (runMain sampleNil 0).trace) :=
  ⟨by decide, fatal_on_every_return sampleNil 0 none (by decide)⟩

end Claims

end EchoMain
